import Mathlib

set_option linter.unusedVariables false

/-!
Verification of the speech-playback pipeline of the LectureLens application
(src/App.tsx): the base64 → PCM16 decoder (`decodeBase64`,
`decodeAudioDataToBuffer`) and the playback session controller
(`handleSpeakOverview`).

Modelling conventions:
* JS byte arrays are `List Nat` with every element < 256.
* JS exceptions thrown to the immediate caller are `Except.error`.
* Audio samples are exact rationals (`Rat`); the source computes
  `int16 / 32768.0`, which is exact in binary floating point for every
  int16 value, so `Rat` loses nothing.
* Platform behaviour relied on by the source is modelled from the
  platform specifications: `atob` is the WHATWG forgiving-base64 decode;
  `new Int16Array(buffer)` throws a RangeError when the buffer's byte
  length is not a multiple of 2; `BaseAudioContext.createBuffer` must
  throw NotSupportedError when `numberOfChannels` or `length` is zero
  (Web Audio API, createBuffer). Implementation-defined upper limits
  (maximum channel count, nominal sample-rate range) are not modelled;
  the application always uses 1 channel at 24000 Hz, well inside them.
-/

namespace LectureLens

/-- ASCII whitespace, as stripped by forgiving-base64 decode. -/
def isAsciiWs (c : Char) : Bool :=
  c == ' ' || c == '\t' || c == '\n' || c == '\x0c' || c == '\r'

/-- Characters of the standard base64 alphabet. -/
def isB64Char (c : Char) : Bool :=
  (65 ≤ c.toNat && c.toNat ≤ 90) || (97 ≤ c.toNat && c.toNat ≤ 122) ||
  (48 ≤ c.toNat && c.toNat ≤ 57) || c.toNat == 43 || c.toNat == 47

/-- Value of a base64 alphabet character (unspecified 63 elsewhere). -/
def b64Val (c : Char) : Nat :=
  let n := c.toNat
  if 65 ≤ n ∧ n ≤ 90 then n - 65
  else if 97 ≤ n ∧ n ≤ 122 then n - 71
  else if 48 ≤ n ∧ n ≤ 57 then n + 4
  else if n = 43 then 62
  else 63

/-- Remove trailing base64 padding when the length is a multiple of 4
(step 2 of forgiving-base64 decode). -/
def stripPad (l : List Char) : List Char :=
  if l.length % 4 = 0 then
    if l.reverse.take 2 = ['=', '='] then l.dropLast.dropLast
    else if l.reverse.take 1 = ['='] then l.dropLast
    else l
  else l

/-- Turn a list of 6-bit values into bytes: each group of four 6-bit
values yields three bytes; a trailing group of two or three values
yields one or two bytes (the leftover bits are discarded). -/
def b64Bytes : List Nat → List Nat
  | a :: b :: c :: d :: rest =>
      (a * 4 + b / 16) :: ((b % 16) * 16 + c / 4) :: ((c % 4) * 64 + d) :: b64Bytes rest
  | [a, b] => [a * 4 + b / 16]
  | [a, b, c] => [a * 4 + b / 16, (b % 16) * 16 + c / 4]
  | _ => []

/-- Failure kinds of the decode pipeline, one per exception the source
can raise: `encoding` is the InvalidCharacterError thrown by atob on
malformed base64, `int16Misalign` the RangeError thrown by the
Int16Array constructor on an odd byte length, `badBufferParams` the
NotSupportedError thrown by createBuffer on a zero channel count or a
zero frame count. -/
inductive DecodeError where
  | encoding
  | int16Misalign
  | badBufferParams
deriving DecidableEq, Repr

/-- Whether a string passes atob's forgiving-base64 validation: after
stripping ASCII whitespace and trailing padding, the length is not
1 mod 4 and every character is in the base64 alphabet. -/
def validBase64 (base64 : String) : Bool :=
  let t := stripPad (base64.data.filter (fun c => !(isAsciiWs c)))
  (t.length % 4 != 1) && t.all isB64Char

/-- Embedding of decodeBase64 (src/App.tsx lines 34-42): atob the
string into a binary string, then copy its char codes into a byte
array. atob's throw on malformed input is the `encoding` error. -/
def decodeBase64 (base64 : String) : Except DecodeError (List Nat) :=
  let t := stripPad (base64.data.filter (fun c => !(isAsciiWs c)))
  if t.length % 4 = 1 then .error .encoding
  else if !(t.all isB64Char) then .error .encoding
  else .ok (b64Bytes (t.map b64Val))

/-- Reinterpret two bytes as a little-endian signed 16-bit integer. -/
def toInt16 (lo hi : Nat) : Int :=
  let u := lo + 256 * hi
  if u < 32768 then (u : Int) else (u : Int) - 65536

/-- Reinterpret a byte list as little-endian int16 values, as the
Int16Array view does (an odd trailing byte never occurs: the
constructor has already rejected odd lengths). -/
def toInt16List : List Nat → List Int
  | lo :: hi :: rest => toInt16 lo hi :: toInt16List rest
  | _ => []

/-- Embedding of decodeAudioDataToBuffer (src/App.tsx lines 44-60).
The byte array is viewed as int16 samples (the Int16Array constructor
throws on an odd byte length); frameCount = samples / numChannels is
truncated to an integer by createBuffer's unsigned-long conversion,
and createBuffer throws when numChannels or the truncated frameCount
is zero. The fill loop's writes past the buffer end (which occur when
samples is not a multiple of numChannels) are silently dropped by the
Float32Array, so each channel holds exactly frameCount samples,
sample i of channel ch being dataInt16[i * numChannels + ch] / 32768.
The sampleRate only parameterizes the device buffer's playback rate,
never the sample values, so it does not appear in the result. -/
def decodeAudioDataToBuffer (data : List Nat) (sampleRate : Nat) (numChannels : Nat) :
    Except DecodeError (List (List Rat)) :=
  if data.length % 2 ≠ 0 then .error .int16Misalign
  else
    let dataInt16 := toInt16List data
    let frameCount := dataInt16.length / numChannels
    if numChannels = 0 ∨ frameCount = 0 then .error .badBufferParams
    else .ok ((List.range numChannels).map fun channel =>
      (List.range frameCount).map fun i =>
        ((dataInt16.getD (i * numChannels + channel) 0 : Int) : Rat) / 32768)

/- ------------------------------------------------------------------
Playback session controller (handleSpeakOverview, src/App.tsx 120-152)
------------------------------------------------------------------ -/

/-- Bilingual text pair (src/types.ts TranslationPair). -/
structure TranslationPair where
  en : String
  ar : String
deriving DecidableEq

/-- Lecture section, only the fields the controller state carries
(src/types.ts LectureSection; subsections and exam questions are
irrelevant to playback). -/
structure LectureSection where
  id : String
  title : TranslationPair
deriving DecidableEq

/-- Structured lecture (src/types.ts StructuredLecture). -/
structure StructuredLecture where
  mainTitle : TranslationPair
  overview : TranslationPair
  sections : List LectureSection
deriving DecidableEq

/-- Selected file (src/App.tsx line 64). -/
structure SelectedFile where
  name : String
  type : String
  data : String
deriving DecidableEq

/-- The App component's state: one field per useState hook of the App
component plus the audioContextRef mutable cell (src/App.tsx 63-72).
The device handle carries no data relevant to the model, so the ref
cell is `Option Unit` mirroring `AudioContext | null`. -/
structure AppState where
  rawInput : String
  selectedFile : Option SelectedFile
  isProcessing : Bool
  errorMsg : Option String
  lecture : Option StructuredLecture
  activeSectionId : Option String
  isSidebarOpen : Bool
  isSpeaking : Bool
  isAppReady : Bool
  audioContext : Option Unit
deriving DecidableEq

/-- Observable events of one controller run, in program order:
`busySet`/`busyCleared` are the setIsSpeaking(true/false) calls,
`remoteCall text` is the generateContent request with its prompt,
`deviceCreate` the AudioContext construction, `playStart` the
source.start() submission of a decoded buffer to the device. -/
inductive Ev where
  | busySet
  | remoteCall (text : String)
  | deviceCreate
  | playStart
  | busyCleared
deriving DecidableEq

/-- Outcome of the awaited generateContent call: either the await
rethrows (network/auth/quota/malformed response), or it succeeds and
the optional chain response.candidates?.[0]...inlineData?.data yields
an optional string payload. -/
inductive RemoteOutcome where
  | failure
  | success (payload : Option String)
deriving DecidableEq

/-- Environment of one controller run: the remote outcome plus whether
the two device operations (AudioContext construction; buffer-source
creation/connect/start) succeed or throw. -/
structure Env where
  remote : RemoteOutcome
  deviceCreateOk : Bool
  playStartOk : Bool
deriving DecidableEq

/-- Embedding of handleSpeakOverview (src/App.tsx 120-152) as one full
invocation. Returns the state when the invocation has run to
completion (including the catch handler and the trailing
setIsSpeaking(false) on every non-playing path), the event trace, and
whether a playback completion callback (source.onended) is pending —
exactly the early-return path at line 148, which leaves isSpeaking
true until the device's end-of-playback notification fires. -/
def handleSpeakOverview (s : AppState) (env : Env) : AppState × List Ev × Bool :=
  match s.lecture with
  | none => (s, [], false)
  | some lec =>
    if s.isSpeaking then (s, [], false)
    else
      let s1 : AppState := { s with isSpeaking := true }
      let callText := "Executive Overview: " ++ lec.overview.en
      match env.remote with
      | .failure =>
          ({ s1 with isSpeaking := false },
           [.busySet, .remoteCall callText, .busyCleared], false)
      | .success payload =>
        match payload with
        | none =>
            ({ s1 with isSpeaking := false },
             [.busySet, .remoteCall callText, .busyCleared], false)
        | some p =>
          if p.isEmpty then
            -- an empty string payload is falsy: treated as no audio
            ({ s1 with isSpeaking := false },
             [.busySet, .remoteCall callText, .busyCleared], false)
          else if s.audioContext = none ∧ env.deviceCreateOk = false then
            -- new AudioContext threw; ref cell stays null, catch clears flag
            ({ s1 with isSpeaking := false },
             [.busySet, .remoteCall callText, .busyCleared], false)
          else
            let createEvs : List Ev :=
              if s.audioContext = none then [.deviceCreate] else []
            let s2 : AppState := { s1 with audioContext := some () }
            match decodeBase64 p with
            | .error _ =>
                ({ s2 with isSpeaking := false },
                 [.busySet, .remoteCall callText] ++ createEvs ++ [.busyCleared], false)
            | .ok bytes =>
              match decodeAudioDataToBuffer bytes 24000 1 with
              | .error _ =>
                  ({ s2 with isSpeaking := false },
                   [.busySet, .remoteCall callText] ++ createEvs ++ [.busyCleared], false)
              | .ok _audioBuffer =>
                if env.playStartOk then
                  (s2, [.busySet, .remoteCall callText] ++ createEvs ++ [.playStart], true)
                else
                  ({ s2 with isSpeaking := false },
                   [.busySet, .remoteCall callText] ++ createEvs ++ [.busyCleared], false)

/-- The source.onended completion callback (src/App.tsx line 146). -/
def onEnded (s : AppState) : AppState := { s with isSpeaking := false }

/-- State after one invocation and, when a playback was started, after
the device's one-shot completion notification has fired. -/
def sessionComplete (s : AppState) (env : Env) : AppState :=
  let r := handleSpeakOverview s env
  if r.2.2 then onEnded r.1 else r.1

/-- The controller states at each suspension point of one invocation
(the places a re-entrant call can run, JS being single-threaded):
always the state while awaiting generateContent; additionally, when a
non-empty payload arrived, the device was available and decodeBase64
succeeded synchronously, the state while awaiting the
decodeAudioDataToBuffer promise (which suspends even when it
rejects). -/
def midStates (s : AppState) (env : Env) : List AppState :=
  match s.lecture with
  | none => []
  | some _ =>
    if s.isSpeaking then []
    else
      let s1 : AppState := { s with isSpeaking := true }
      match env.remote with
      | .failure => [s1]
      | .success payload =>
        match payload with
        | none => [s1]
        | some p =>
          if p.isEmpty then [s1]
          else if s.audioContext = none ∧ env.deviceCreateOk = false then [s1]
          else
            match decodeBase64 p with
            | .error _ => [s1]
            | .ok _ => [s1, { s1 with audioContext := some () }]

/-- Interleaved little-endian encoding of int16 values, the inverse
direction used by the round-trip property. -/
def int16ToBytesLE (v : Int) : List Nat :=
  let u := (v % 65536).toNat
  [u % 256, u / 256]

/-- Encode a flat interleaved list of int16 samples as bytes. -/
def encodePCM16LE : List Int → List Nat
  | [] => []
  | v :: rest => int16ToBytesLE v ++ encodePCM16LE rest

/- ------------------------------------------------------------------
Helper lemmas
------------------------------------------------------------------ -/

/-- Viewing bytes as int16 halves the length (rounding down). -/
theorem toInt16List_length : ∀ data : List Nat,
    (toInt16List data).length = data.length / 2
  | [] => rfl
  | [_] => by simp [toInt16List]
  | _ :: _ :: rest => by
      rw [toInt16List]
      simp only [List.length_cons, toInt16List_length rest]
      omega

/-- A little-endian int16 built from two bytes lies in the int16 range. -/
theorem toInt16_bounds (lo hi : Nat) (hlo : lo < 256) (hhi : hi < 256) :
    -32768 ≤ toInt16 lo hi ∧ toInt16 lo hi ≤ 32767 := by
  dsimp only [toInt16]
  split <;> omega

/-- Every value in the int16 view of a byte list is in the int16 range. -/
theorem toInt16List_mem_bounds : ∀ (data : List Nat), (∀ b ∈ data, b < 256) →
    ∀ x ∈ toInt16List data, -32768 ≤ x ∧ x ≤ 32767
  | [], _, x, hx => by simp [toInt16List] at hx
  | [_], _, x, hx => by simp [toInt16List] at hx
  | lo :: hi :: rest, hb, x, hx => by
      rw [toInt16List] at hx
      rcases List.mem_cons.mp hx with h | h
      · subst h
        exact toInt16_bounds lo hi (hb lo (by simp)) (hb hi (by simp))
      · exact toInt16List_mem_bounds rest (fun b hbm => hb b (by simp [hbm])) x h

/-- getD either returns a member of the list or the default. -/
theorem getD_mem_or_default (l : List Int) (n : Nat) :
    l.getD n 0 ∈ l ∨ l.getD n 0 = 0 := by
  rcases Nat.lt_or_ge n l.length with h | h
  · left
    rw [List.getD_eq_getElem l 0 h]
    exact List.getElem_mem h
  · right
    exact List.getD_eq_default l 0 h

/-- getD over a mapped range evaluates the function below the bound. -/
theorem getD_range_map {α : Type} (f : Nat → α) (n j : Nat) (d : α) (h : j < n) :
    ((List.range n).map f).getD j d = f j := by
  rw [List.getD_eq_getElem _ d (by simpa using h)]
  simp

/-- Characterization of the successful decode path. -/
theorem decodeAudio_ok (data : List Nat) (sampleRate ch : Nat)
    (h2 : data.length % 2 = 0) (hch : ch ≠ 0)
    (hfc : (toInt16List data).length / ch ≠ 0) :
    decodeAudioDataToBuffer data sampleRate ch =
      .ok ((List.range ch).map fun channel =>
        (List.range ((toInt16List data).length / ch)).map fun i =>
          (((toInt16List data).getD (i * ch + channel) 0 : Int) : Rat) / 32768) := by
  unfold decodeAudioDataToBuffer
  rw [if_neg (by omega)]
  rw [if_neg (by tauto)]

/-- Encoding doubles the length. -/
theorem encodePCM16LE_length : ∀ vals : List Int,
    (encodePCM16LE vals).length = 2 * vals.length
  | [] => rfl
  | v :: rest => by
      rw [encodePCM16LE]
      simp only [int16ToBytesLE, List.cons_append, List.length_cons, List.nil_append,
        List.length_append, encodePCM16LE_length rest]
      omega

/-- Little-endian int16 encode/decode round-trip on one value. -/
theorem toInt16_int16ToBytesLE (v : Int) (h1 : -32768 ≤ v) (h2 : v ≤ 32767) :
    toInt16 ((v % 65536).toNat % 256) ((v % 65536).toNat / 256) = v := by
  dsimp only [toInt16]
  split <;> omega

/-- Little-endian int16 encode/decode round-trip on a sample list. -/
theorem toInt16List_encodePCM16LE : ∀ (vals : List Int),
    (∀ v ∈ vals, -32768 ≤ v ∧ v ≤ 32767) →
    toInt16List (encodePCM16LE vals) = vals
  | [], _ => rfl
  | v :: rest, h => by
      have hv := h v (List.mem_cons_self v rest)
      have hrest := toInt16List_encodePCM16LE rest
        (fun w hw => h w (List.mem_cons_of_mem v hw))
      rw [encodePCM16LE]
      dsimp only [int16ToBytesLE]
      rw [List.cons_append, List.cons_append, List.nil_append, toInt16List]
      rw [toInt16_int16ToBytesLE v hv.1 hv.2, hrest]

/- ------------------------------------------------------------------
Decoder claims
------------------------------------------------------------------ -/

/-- C3 (counterexample): the claim fails for multi-channel counts. A
6-byte payload decoded with 2 channels has byte length not divisible
by 2 * 2 = 4, yet decode succeeds, silently dropping the trailing
partial frame (one frame per channel survives) instead of failing
with the truncation error. -/
theorem even_misaligned_payload_not_rejected :
    6 % (2 * 2) ≠ 0 ∧
    ∃ res, decodeAudioDataToBuffer [0, 0, 0, 0, 0, 0] 24000 2 = .ok res ∧
      res.length = 2 ∧ ∀ c ∈ res, c.length = 1 := by
  constructor
  · decide
  · refine ⟨_, decodeAudio_ok [0, 0, 0, 0, 0, 0] 24000 2 (by decide) (by decide)
      (by decide), ?_, ?_⟩
    · simp
    · intro c hc
      simp only [List.mem_map, List.mem_range] at hc
      rcases hc with ⟨channel, _, rfl⟩
      simp [toInt16List]

/-- C3 (amended): every payload whose byte length is not divisible by
2 is rejected, for any channel count, with the alignment (truncation)
error thrown by the Int16Array view, and no partial result is
returned. (Byte lengths divisible by 2 but not by 2 * channels are
not rejected; see the counterexample.) -/
theorem odd_byte_length_rejected (data : List Nat) (sampleRate numChannels : Nat)
    (h : data.length % 2 ≠ 0) :
    decodeAudioDataToBuffer data sampleRate numChannels = .error .int16Misalign := by
  unfold decodeAudioDataToBuffer
  rw [if_pos h]

/-- Witness for the amended C3, at the spec's own concrete scenario:
byte length 5, channel count 1. -/
theorem odd_byte_length_rejected_witness :
    ([1, 2, 3, 4, 5] : List Nat).length % 2 ≠ 0 ∧
    decodeAudioDataToBuffer [1, 2, 3, 4, 5] 24000 1 = .error .int16Misalign :=
  ⟨by decide, odd_byte_length_rejected [1, 2, 3, 4, 5] 24000 1 (by decide)⟩

/-- C4 (counterexample): the claim fails at k = 0. The empty payload
has byte length 2 * 1 * 0 and should, per the claim, decode to one
empty channel; instead decode fails, because createBuffer must throw
on a zero frame count. -/
theorem empty_payload_decode_fails :
    ([] : List Nat).length = 2 * 1 * 0 ∧
    decodeAudioDataToBuffer [] 24000 1 = .error .badBufferParams :=
  ⟨rfl, rfl⟩

/-- C4 (amended): for every payload of byte length 2 * channels * k
with k ≥ 1 and channels ≥ 1, decode returns exactly channels
per-channel sequences, each of length k, with every sample in
[-1, 1]. -/
theorem valid_payload_decode_shape (data : List Nat) (sampleRate ch k : Nat)
    (hch : 1 ≤ ch) (hk : 1 ≤ k) (hlen : data.length = 2 * ch * k)
    (hb : ∀ b ∈ data, b < 256) :
    ∃ res, decodeAudioDataToBuffer data sampleRate ch = .ok res ∧
      res.length = ch ∧ (∀ c ∈ res, c.length = k) ∧
      ∀ c ∈ res, ∀ x ∈ c, -1 ≤ x ∧ x ≤ 1 := by
  have hlen' : data.length = 2 * (ch * k) := by rw [hlen, Nat.mul_assoc]
  have hlen16 : (toInt16List data).length = ch * k := by
    rw [toInt16List_length, hlen']; omega
  have hfc : (toInt16List data).length / ch = k := by
    rw [hlen16]
    exact Nat.mul_div_cancel_left k (by omega)
  rw [decodeAudio_ok data sampleRate ch (by omega) (by omega) (by rw [hfc]; omega)]
  refine ⟨_, rfl, ?_, ?_, ?_⟩
  · simp
  · intro c hc
    simp only [List.mem_map, List.mem_range] at hc
    rcases hc with ⟨channel, _, rfl⟩
    simp [hfc]
  · intro c hc x hx
    simp only [List.mem_map, List.mem_range] at hc
    rcases hc with ⟨channel, hchannel, rfl⟩
    simp only [List.mem_map, List.mem_range] at hx
    rcases hx with ⟨i, hi, rfl⟩
    have hv : -32768 ≤ (toInt16List data).getD (i * ch + channel) 0 ∧
        (toInt16List data).getD (i * ch + channel) 0 ≤ 32767 := by
      rcases getD_mem_or_default (toInt16List data) (i * ch + channel) with hm | h0
      · exact toInt16List_mem_bounds data hb _ hm
      · rw [h0]; constructor <;> norm_num
    have hc1 : (-32768 : ℚ) ≤ ((toInt16List data).getD (i * ch + channel) 0 : ℚ) := by
      exact_mod_cast hv.1
    have hc2 : ((toInt16List data).getD (i * ch + channel) 0 : ℚ) ≤ 32767 := by
      exact_mod_cast hv.2
    constructor
    · rw [le_div_iff₀ (by norm_num : (0 : ℚ) < 32768)]
      linarith
    · rw [div_le_one (by norm_num : (0 : ℚ) < 32768)]
      linarith

/-- Witness for the amended C4 at a 2-byte, 1-channel, 1-frame payload. -/
theorem valid_payload_decode_shape_witness :
    (1 ≤ 1 ∧ ([100, 0] : List Nat).length = 2 * 1 * 1 ∧
      ∀ b ∈ ([100, 0] : List Nat), b < 256) ∧
    (∃ res, decodeAudioDataToBuffer [100, 0] 24000 1 = .ok res ∧
      res.length = 1 ∧ (∀ c ∈ res, c.length = 1) ∧
      ∀ c ∈ res, ∀ x ∈ c, -1 ≤ x ∧ x ≤ 1) :=
  ⟨⟨by decide, by decide, by decide⟩,
   valid_payload_decode_shape [100, 0] 24000 1 1 (by decide) (by decide)
     (by decide) (by decide)⟩

/-- C5: round-trip. Encoding any flat interleaved list of ch * k int16
samples as little-endian bytes and decoding with ch channels succeeds
and reproduces each original sample exactly as value / 32768 (so in
particular to within 1/32768); the divisor is 32768, not 32767. -/
theorem pcm_roundtrip (vals : List Int) (sampleRate ch k : Nat)
    (hch : 1 ≤ ch) (hk : 1 ≤ k) (hlen : vals.length = ch * k)
    (hrange : ∀ v ∈ vals, -32768 ≤ v ∧ v ≤ 32767) :
    ∃ res, decodeAudioDataToBuffer (encodePCM16LE vals) sampleRate ch = .ok res ∧
      ∀ channel, channel < ch → ∀ i, i < k →
        (res.getD channel []).getD i 0
            = ((vals.getD (i * ch + channel) 0 : Int) : Rat) / 32768 ∧
        |(res.getD channel []).getD i 0
            - ((vals.getD (i * ch + channel) 0 : Int) : Rat) / 32768| ≤ 1 / 32768 := by
  have henc := toInt16List_encodePCM16LE vals hrange
  have hlen2 : (encodePCM16LE vals).length = 2 * vals.length := encodePCM16LE_length vals
  have hfc : (toInt16List (encodePCM16LE vals)).length / ch = k := by
    rw [henc, hlen]
    exact Nat.mul_div_cancel_left k (by omega)
  rw [decodeAudio_ok _ sampleRate ch (by omega) (by omega) (by rw [hfc]; omega)]
  refine ⟨_, rfl, ?_⟩
  intro channel hchannel i hi
  rw [hfc, henc]
  rw [getD_range_map _ ch channel [] hchannel, getD_range_map _ k i 0 hi]
  refine ⟨rfl, ?_⟩
  simp

/-- Witness for C5 on the spec's concrete two-channel scenario:
values 100, -100, 200, -200, 300, -300 interleaved, 2 channels,
3 frames. -/
theorem pcm_roundtrip_witness :
    (1 ≤ 2 ∧ 1 ≤ 3 ∧ ([100, -100, 200, -200, 300, -300] : List Int).length = 2 * 3 ∧
      ∀ v ∈ ([100, -100, 200, -200, 300, -300] : List Int), -32768 ≤ v ∧ v ≤ 32767) ∧
    (∃ res, decodeAudioDataToBuffer
        (encodePCM16LE [100, -100, 200, -200, 300, -300]) 24000 2 = .ok res ∧
      ∀ channel, channel < 2 → ∀ i, i < 3 →
        (res.getD channel []).getD i 0
            = ((([100, -100, 200, -200, 300, -300] : List Int).getD (i * 2 + channel) 0 : Int) : Rat)
              / 32768 ∧
        |(res.getD channel []).getD i 0
            - ((([100, -100, 200, -200, 300, -300] : List Int).getD (i * 2 + channel) 0 : Int) : Rat)
              / 32768| ≤ 1 / 32768) :=
  ⟨⟨by decide, by decide, by decide, by decide⟩,
   pcm_roundtrip [100, -100, 200, -200, 300, -300] 24000 2 3 (by decide) (by decide)
     (by decide) (by decide)⟩

/-- Invocation on a busy controller is a no-op (the guard at line 121). -/
theorem speak_noop (s : AppState) (env : Env) (h : s.isSpeaking = true) :
    handleSpeakOverview s env = (s, [], false) := by
  unfold handleSpeakOverview
  cases hl : s.lecture with
  | none => rfl
  | some lec => simp [h]

/-- JS truthiness of the optional payload field: present and non-empty. -/
def payloadTruthy : Option String → Bool
  | none => false
  | some p => !p.isEmpty

/-- Invocation without a loaded lecture is a no-op (the guard at line 121). -/
theorem speak_noop_no_lecture (s : AppState) (env : Env) (h : s.lecture = none) :
    handleSpeakOverview s env = (s, [], false) := by
  unfold handleSpeakOverview
  rw [h]

/-- Shape of every run past the guard: the trace opens with the busy
flag being set and the remote call, optionally creates the device,
and either starts playback (leaving the flag set and a completion
callback pending) or clears the flag; the final state differs from
the initial one only in the speaking flag and the device handle. -/
theorem speak_shape (s : AppState) (env : Env)
    (hlec : s.lecture ≠ none) (hidle : s.isSpeaking = false) :
    ∃ (text : String) (created pend : Bool),
      handleSpeakOverview s env =
        ({ s with isSpeaking := pend,
                  audioContext := if created then some () else s.audioContext },
         [Ev.busySet, Ev.remoteCall text]
           ++ (if created then [Ev.deviceCreate] else [])
           ++ [if pend then Ev.playStart else Ev.busyCleared],
         pend) := by
  rcases s with ⟨ri, sf, ip, em, lec, asi, sb, sp, ar, ac⟩
  cases lec with
  | none => exact absurd rfl hlec
  | some L =>
    dsimp only at hidle
    subst hidle
    rcases env with ⟨remote, dco, pso⟩
    unfold handleSpeakOverview
    cases remote with
    | failure => exact ⟨_, false, false, rfl⟩
    | success payload =>
      cases payload with
      | none => exact ⟨_, false, false, rfl⟩
      | some p =>
        cases hp : p.isEmpty with
        | true =>
          refine ⟨"Executive Overview: " ++ L.overview.en, false, false, ?_⟩
          simp [hp]
        | false =>
          cases ac with
          | none =>
            cases dco with
            | false =>
              refine ⟨"Executive Overview: " ++ L.overview.en, false, false, ?_⟩
              simp [hp]
            | true =>
              cases hdb : decodeBase64 p with
              | error e =>
                refine ⟨"Executive Overview: " ++ L.overview.en, true, false, ?_⟩
                simp [hp, hdb]
              | ok bytes =>
                cases hda : decodeAudioDataToBuffer bytes 24000 1 with
                | error e2 =>
                  refine ⟨"Executive Overview: " ++ L.overview.en, true, false, ?_⟩
                  simp [hp, hdb, hda]
                | ok buf =>
                  cases pso with
                  | true =>
                    refine ⟨"Executive Overview: " ++ L.overview.en, true, true, ?_⟩
                    simp [hp, hdb, hda]
                  | false =>
                    refine ⟨"Executive Overview: " ++ L.overview.en, true, false, ?_⟩
                    simp [hp, hdb, hda]
          | some u =>
            cases u
            cases hdb : decodeBase64 p with
            | error e =>
              refine ⟨"Executive Overview: " ++ L.overview.en, false, false, ?_⟩
              simp [hp, hdb]
            | ok bytes =>
              cases hda : decodeAudioDataToBuffer bytes 24000 1 with
              | error e2 =>
                refine ⟨"Executive Overview: " ++ L.overview.en, false, false, ?_⟩
                simp [hp, hdb, hda]
              | ok buf =>
                cases pso with
                | true =>
                  refine ⟨"Executive Overview: " ++ L.overview.en, false, true, ?_⟩
                  simp [hp, hdb, hda]
                | false =>
                  refine ⟨"Executive Overview: " ++ L.overview.en, false, false, ?_⟩
                  simp [hp, hdb, hda]

/-- The busy flag is cleared by session end on every run from a
non-busy state, counting the completion notification when playback
started. -/
theorem speak_clears (s : AppState) (env : Env) (hidle : s.isSpeaking = false) :
    (sessionComplete s env).isSpeaking = false := by
  by_cases hlec : s.lecture = none
  · simp [sessionComplete, speak_noop_no_lecture s env hlec, hidle]
  · obtain ⟨t, created, pend, hshape⟩ := speak_shape s env hlec hidle
    simp only [sessionComplete, hshape, onEnded]
    cases pend <;> simp

/- ------------------------------------------------------------------
Controller claims
------------------------------------------------------------------ -/

/-- Example lecture used by the concrete witnesses. -/
def sampleLecture : StructuredLecture :=
  { mainTitle := { en := "T", ar := "t" }
  , overview := { en := "O", ar := "o" }
  , sections := [{ id := "s1", title := { en := "S", ar := "s" } }] }

/-- Example idle state: lecture loaded, not speaking, no device yet. -/
def sampleIdleState : AppState :=
  { rawInput := "", selectedFile := none, isProcessing := false, errorMsg := none
  , lecture := some sampleLecture, activeSectionId := some "s1"
  , isSidebarOpen := false, isSpeaking := false, isAppReady := true
  , audioContext := none }

/-- C1: every outcome of a playback request started by speakOverview
(success with audio, success without audio, remote-call failure,
decode failure, device failure) returns the controller to Idle with
the busy flag cleared — within one completion notification when
playback started, immediately otherwise. -/
theorem busy_flag_liveness (s : AppState) (env : Env)
    (hlec : s.lecture ≠ none) (hidle : s.isSpeaking = false) :
    (sessionComplete s env).isSpeaking = false :=
  speak_clears s env hidle

/-- Witness for C1 on a concrete remote failure. -/
theorem busy_flag_liveness_witness :
    sampleIdleState.lecture ≠ none ∧ sampleIdleState.isSpeaking = false ∧
    (sessionComplete sampleIdleState
      { remote := .failure, deviceCreateOk := true, playStartOk := true }).isSpeaking
      = false :=
  ⟨by decide, rfl,
   busy_flag_liveness sampleIdleState
     { remote := .failure, deviceCreateOk := true, playStartOk := true }
     (by decide) rfl⟩

/-- C2: a second speakOverview call while the controller is busy
(between setIsSpeaking(true) and the return to Idle) has no
observable effect: the state is unchanged, no event — in particular
no second remote TTS call — is emitted, and no playback is started. -/
theorem single_flight_noop (s : AppState) (env : Env) (h : s.isSpeaking = true) :
    handleSpeakOverview s env = (s, [], false) :=
  speak_noop s env h

/-- Witness for C2 at a concrete busy state. -/
theorem single_flight_noop_witness :
    ({ sampleIdleState with isSpeaking := true } : AppState).isSpeaking = true ∧
    handleSpeakOverview { sampleIdleState with isSpeaking := true }
        { remote := .success (some "TWE="), deviceCreateOk := true, playStartOk := true }
      = ({ sampleIdleState with isSpeaking := true }, [], false) :=
  ⟨rfl,
   single_flight_noop { sampleIdleState with isSpeaking := true }
     { remote := .success (some "TWE="), deviceCreateOk := true, playStartOk := true }
     rfl⟩

/-- C7: when the remote call succeeds but carries no (or an empty)
audio payload, the controller goes straight back to Idle: the state
is exactly the initial one (in particular the device handle is
unchanged), the device is neither created nor written to, and no
playback is pending. -/
theorem empty_payload_idle_device_untouched (s : AppState) (env : Env)
    (payload : Option String)
    (hlec : s.lecture ≠ none) (hidle : s.isSpeaking = false)
    (hremote : env.remote = .success payload)
    (hempty : payloadTruthy payload = false) :
    (handleSpeakOverview s env).1 = s ∧
    Ev.deviceCreate ∉ (handleSpeakOverview s env).2.1 ∧
    Ev.playStart ∉ (handleSpeakOverview s env).2.1 ∧
    (handleSpeakOverview s env).2.2 = false := by
  rcases s with ⟨ri, sf, ip, em, lec, asi, sb, sp, ar, ac⟩
  cases lec with
  | none => exact absurd rfl hlec
  | some L =>
    dsimp only at hidle
    subst hidle
    rcases env with ⟨remote, dco, pso⟩
    dsimp only at hremote
    subst hremote
    unfold handleSpeakOverview
    cases payload with
    | none => exact ⟨rfl, by simp, by simp, rfl⟩
    | some p =>
      have hp : p.isEmpty = true := by
        unfold payloadTruthy at hempty
        simpa using hempty
      simp [hp]

/-- Witness for C7 with a present-but-empty payload. -/
theorem empty_payload_idle_device_untouched_witness :
    sampleIdleState.lecture ≠ none ∧ sampleIdleState.isSpeaking = false ∧
    payloadTruthy (some "") = false ∧
    ((handleSpeakOverview sampleIdleState
        { remote := .success (some ""), deviceCreateOk := true, playStartOk := true }).1
        = sampleIdleState ∧
      Ev.deviceCreate ∉ (handleSpeakOverview sampleIdleState
        { remote := .success (some ""), deviceCreateOk := true, playStartOk := true }).2.1 ∧
      Ev.playStart ∉ (handleSpeakOverview sampleIdleState
        { remote := .success (some ""), deviceCreateOk := true, playStartOk := true }).2.1 ∧
      (handleSpeakOverview sampleIdleState
        { remote := .success (some ""), deviceCreateOk := true, playStartOk := true }).2.2
        = false) :=
  ⟨by decide, rfl, rfl,
   empty_payload_idle_device_untouched sampleIdleState
     { remote := .success (some ""), deviceCreateOk := true, playStartOk := true }
     (some "") (by decide) rfl rfl rfl⟩

/-- C9: the busy flag is set synchronously before the remote call is
issued (the trace of every started run opens with busySet followed by
the remote call), and at every suspension point of an in-flight run
the flag is observed set, so a re-entrant call there is a no-op and
emits no second remote call. -/
theorem busy_set_before_remote_call (s : AppState) (env : Env)
    (hlec : s.lecture ≠ none) (hidle : s.isSpeaking = false) :
    (∃ text rest,
      (handleSpeakOverview s env).2.1 = Ev.busySet :: Ev.remoteCall text :: rest) ∧
    ∀ m ∈ midStates s env, m.isSpeaking = true ∧
      ∀ env2, handleSpeakOverview m env2 = (m, [], false) := by
  constructor
  · obtain ⟨t, created, pend, hshape⟩ := speak_shape s env hlec hidle
    refine ⟨t, (if created then [Ev.deviceCreate] else [])
      ++ [if pend then Ev.playStart else Ev.busyCleared], ?_⟩
    rw [hshape]
    simp
  · intro m hm
    have hms : m.isSpeaking = true := by
      rcases s with ⟨ri, sf, ip, em, lec, asi, sb, sp, ar, ac⟩
      cases lec with
      | none => exact absurd rfl hlec
      | some L =>
        dsimp only at hidle
        subst hidle
        rcases env with ⟨remote, dco, pso⟩
        unfold midStates at hm
        cases remote with
        | failure => simp at hm; subst hm; rfl
        | success payload =>
          cases payload with
          | none => simp at hm; subst hm; rfl
          | some p =>
            cases hp : p.isEmpty with
            | true => simp [hp] at hm; subst hm; rfl
            | false =>
              rcases ac with _ | u
              · cases dco with
                | false => simp [hp] at hm; subst hm; rfl
                | true =>
                  cases hdb : decodeBase64 p with
                  | error e => simp [hp, hdb] at hm; subst hm; rfl
                  | ok bytes =>
                    simp [hp, hdb] at hm
                    rcases hm with hm | hm <;> (subst hm; rfl)
              · cases u
                cases hdb : decodeBase64 p with
                | error e => simp [hp, hdb] at hm; subst hm; rfl
                | ok bytes =>
                  simp [hp, hdb] at hm
                  first
                  | rfl
                  | (subst hm; rfl)
    exact ⟨hms, fun env2 => speak_noop m env2 hms⟩

/-- Witness for C9 on a run that reaches playback. -/
theorem busy_set_before_remote_call_witness :
    sampleIdleState.lecture ≠ none ∧ sampleIdleState.isSpeaking = false ∧
    ((∃ text rest,
      (handleSpeakOverview sampleIdleState
        { remote := .success (some "TWE="), deviceCreateOk := true, playStartOk := true }).2.1
        = Ev.busySet :: Ev.remoteCall text :: rest) ∧
    ∀ m ∈ midStates sampleIdleState
        { remote := .success (some "TWE="), deviceCreateOk := true, playStartOk := true },
      m.isSpeaking = true ∧
      ∀ env2, handleSpeakOverview m env2 = (m, [], false)) :=
  ⟨by decide, rfl,
   busy_set_before_remote_call sampleIdleState
     { remote := .success (some "TWE="), deviceCreateOk := true, playStartOk := true }
     (by decide) rfl⟩

/-- C6: a string that fails base64 validation makes decodeBase64 abort
immediately with the encoding error delivered to its caller (the
Except error: the exception thrown by atob to the caller), and the
controller boundary contains every such failure: the run ends with
the busy flag cleared and no playback pending, never escalating the
failure beyond the catch. -/
theorem invalid_base64_contained (base64 : String) (s : AppState) (env : Env)
    (hbad : validBase64 base64 = false)
    (hlec : s.lecture ≠ none) (hidle : s.isSpeaking = false)
    (hremote : env.remote = .success (some base64)) :
    decodeBase64 base64 = .error .encoding ∧
    (handleSpeakOverview s env).1.isSpeaking = false ∧
    (handleSpeakOverview s env).2.2 = false := by
  have hdb : decodeBase64 base64 = .error .encoding := by
    unfold decodeBase64
    simp only [validBase64] at hbad
    by_cases h1 : (stripPad (base64.data.filter fun c => !isAsciiWs c)).length % 4 = 1
    · rw [if_pos h1]
    · rw [if_neg h1]
      have hall : (stripPad (base64.data.filter fun c => !isAsciiWs c)).all isB64Char
          = false := by
        cases hall : (stripPad (base64.data.filter fun c => !isAsciiWs c)).all isB64Char
        · rfl
        · exfalso
          rw [hall, Bool.and_true] at hbad
          simp at hbad
          exact h1 hbad
      rw [hall]
      rfl
  have hne : base64.isEmpty = false := by
    cases hemp : base64.isEmpty
    · rfl
    · exfalso
      have hb0 : base64 = "" := (String.isEmpty_iff base64).mp hemp
      rw [hb0] at hbad
      exact absurd hbad (by decide)
  refine ⟨hdb, ?_⟩
  rcases s with ⟨ri, sf, ip, em, lec, asi, sb, sp, ar, ac⟩
  cases lec with
  | none => exact absurd rfl hlec
  | some L =>
    dsimp only at hidle
    subst hidle
    rcases env with ⟨remote, dco, pso⟩
    dsimp only at hremote
    subst hremote
    unfold handleSpeakOverview
    rcases ac with _ | u
    · cases dco <;> simp [hne, hdb]
    · cases u
      simp [hne, hdb]

/-- Witness for C6 with a concrete malformed string (an illegal
character). -/
theorem invalid_base64_contained_witness :
    validBase64 "!!!" = false ∧ sampleIdleState.lecture ≠ none ∧
    sampleIdleState.isSpeaking = false ∧
    (decodeBase64 "!!!" = .error .encoding ∧
      (handleSpeakOverview sampleIdleState
        { remote := .success (some "!!!"), deviceCreateOk := true,
          playStartOk := true }).1.isSpeaking = false ∧
      (handleSpeakOverview sampleIdleState
        { remote := .success (some "!!!"), deviceCreateOk := true,
          playStartOk := true }).2.2 = false) :=
  ⟨by decide, by decide, rfl,
   invalid_base64_contained "!!!" sampleIdleState
     { remote := .success (some "!!!"), deviceCreateOk := true, playStartOk := true }
     (by decide) (by decide) rfl rfl⟩

/-- C8 (counterexample): the device handle is not created "on the
first successful playback". Payload "AA==" decodes to a single byte,
so PCM decoding fails and no playback ever starts, yet the device
handle has already been created: creation happens on the first
attempt with a non-empty payload, successful or not. -/
theorem device_created_without_playback :
    (handleSpeakOverview sampleIdleState
      { remote := .success (some "AA=="), deviceCreateOk := true,
        playStartOk := true }).2.1.count Ev.deviceCreate = 1 ∧
    Ev.playStart ∉ (handleSpeakOverview sampleIdleState
      { remote := .success (some "AA=="), deviceCreateOk := true,
        playStartOk := true }).2.1 ∧
    (handleSpeakOverview sampleIdleState
      { remote := .success (some "AA=="), deviceCreateOk := true,
        playStartOk := true }).1.audioContext = some () ∧
    (handleSpeakOverview sampleIdleState
      { remote := .success (some "AA=="), deviceCreateOk := true,
        playStartOk := true }).2.2 = false := by
  decide

/-- C8 (amended): the device handle is created lazily, exactly once,
on the first playback attempt that carries a non-empty audio payload
(whether or not that playback succeeds), and is reused — never
re-created — by all later requests; device creation failure aborts
only that attempt, leaving the state as it was with the busy flag
cleared. -/
theorem device_lazy_creation (s : AppState) (env : Env)
    (hlec : s.lecture ≠ none) (hidle : s.isSpeaking = false) :
    (∀ u, s.audioContext = some u →
      Ev.deviceCreate ∉ (handleSpeakOverview s env).2.1 ∧
      (handleSpeakOverview s env).1.audioContext = some u) ∧
    (∀ p, s.audioContext = none → env.remote = .success (some p) →
      p.isEmpty = false → env.deviceCreateOk = true →
      ∃ text tail,
        (handleSpeakOverview s env).2.1
          = [Ev.busySet, Ev.remoteCall text, Ev.deviceCreate] ++ tail ∧
        Ev.deviceCreate ∉ tail ∧
        (handleSpeakOverview s env).1.audioContext = some ()) ∧
    (∀ p, s.audioContext = none → env.remote = .success (some p) →
      p.isEmpty = false → env.deviceCreateOk = false →
      ∃ text, handleSpeakOverview s env
        = (s, [Ev.busySet, Ev.remoteCall text, Ev.busyCleared], false)) := by
  rcases s with ⟨ri, sf, ip, em, lec, asi, sb, sp, ar, ac⟩
  cases lec with
  | none => exact absurd rfl hlec
  | some L =>
    dsimp only at hidle
    subst hidle
    rcases env with ⟨remote, dco, pso⟩
    refine ⟨?_, ?_, ?_⟩
    · intro u hu
      dsimp only at hu
      subst hu
      cases u
      unfold handleSpeakOverview
      cases remote with
      | failure => exact ⟨by simp, rfl⟩
      | success payload =>
        cases payload with
        | none => exact ⟨by simp, rfl⟩
        | some p =>
          cases hp : p.isEmpty with
          | true => refine ⟨?_, ?_⟩ <;> simp [hp]
          | false =>
            cases hdb : decodeBase64 p with
            | error e => refine ⟨?_, ?_⟩ <;> simp [hp, hdb]
            | ok bytes =>
              cases hda : decodeAudioDataToBuffer bytes 24000 1 with
              | error e2 => refine ⟨?_, ?_⟩ <;> simp [hp, hdb, hda]
              | ok buf =>
                cases pso <;> (refine ⟨?_, ?_⟩ <;> simp [hp, hdb, hda])
    · intro p hac hrem hp hdco
      dsimp only at hac hrem
      subst hac
      cases hrem
      dsimp only at hdco
      subst hdco
      unfold handleSpeakOverview
      cases hdb : decodeBase64 p with
      | error e =>
        refine ⟨"Executive Overview: " ++ L.overview.en, [Ev.busyCleared], ?_, by simp, ?_⟩ <;> simp [hp, hdb]
      | ok bytes =>
        cases hda : decodeAudioDataToBuffer bytes 24000 1 with
        | error e2 =>
          refine ⟨"Executive Overview: " ++ L.overview.en, [Ev.busyCleared], ?_, by simp, ?_⟩ <;> simp [hp, hdb, hda]
        | ok buf =>
          cases pso
          · refine ⟨"Executive Overview: " ++ L.overview.en, [Ev.busyCleared], ?_, by simp, ?_⟩ <;> simp [hp, hdb, hda]
          · refine ⟨"Executive Overview: " ++ L.overview.en, [Ev.playStart], ?_, by simp, ?_⟩ <;> simp [hp, hdb, hda]
    · intro p hac hrem hp hdco
      dsimp only at hac hrem
      subst hac
      cases hrem
      dsimp only at hdco
      subst hdco
      unfold handleSpeakOverview
      refine ⟨"Executive Overview: " ++ L.overview.en, ?_⟩
      simp [hp]

/-- Witness for the amended C8: a run from a device-less idle state
with a valid 2-byte payload creates the device exactly once and
starts playback. -/
theorem device_lazy_creation_witness :
    sampleIdleState.lecture ≠ none ∧ sampleIdleState.isSpeaking = false ∧
    ((∀ u, sampleIdleState.audioContext = some u →
      Ev.deviceCreate ∉ (handleSpeakOverview sampleIdleState
        { remote := .success (some "TWE="), deviceCreateOk := true,
          playStartOk := true }).2.1 ∧
      (handleSpeakOverview sampleIdleState
        { remote := .success (some "TWE="), deviceCreateOk := true,
          playStartOk := true }).1.audioContext = some u) ∧
    (∀ p, sampleIdleState.audioContext = none →
      RemoteOutcome.success (some "TWE=") = .success (some p) →
      p.isEmpty = false → true = true →
      ∃ text tail,
        (handleSpeakOverview sampleIdleState
          { remote := .success (some "TWE="), deviceCreateOk := true,
            playStartOk := true }).2.1
          = [Ev.busySet, Ev.remoteCall text, Ev.deviceCreate] ++ tail ∧
        Ev.deviceCreate ∉ tail ∧
        (handleSpeakOverview sampleIdleState
          { remote := .success (some "TWE="), deviceCreateOk := true,
            playStartOk := true }).1.audioContext = some ()) ∧
    (∀ p, sampleIdleState.audioContext = none →
      RemoteOutcome.success (some "TWE=") = .success (some p) →
      p.isEmpty = false → true = false →
      ∃ text, handleSpeakOverview sampleIdleState
        { remote := .success (some "TWE="), deviceCreateOk := true,
          playStartOk := true }
        = (sampleIdleState, [Ev.busySet, Ev.remoteCall text, Ev.busyCleared], false))) :=
  ⟨by decide, rfl,
   device_lazy_creation sampleIdleState
     { remote := .success (some "TWE="), deviceCreateOk := true, playStartOk := true }
     (by decide) rfl⟩

/-- C10: the only pieces of state any speakOverview run (guard
rejection, empty payload, any failure, successful playback, and the
completion callback) can modify are the speaking flag and the audio
device handle; the lecture, raw input, selected file, processing
flag, error message, active section id, sidebar flag and app-ready
flag are untouched. -/
theorem speak_frame_effect (s : AppState) (env : Env) :
    ((handleSpeakOverview s env).1.rawInput = s.rawInput ∧
     (handleSpeakOverview s env).1.selectedFile = s.selectedFile ∧
     (handleSpeakOverview s env).1.isProcessing = s.isProcessing ∧
     (handleSpeakOverview s env).1.errorMsg = s.errorMsg ∧
     (handleSpeakOverview s env).1.lecture = s.lecture ∧
     (handleSpeakOverview s env).1.activeSectionId = s.activeSectionId ∧
     (handleSpeakOverview s env).1.isSidebarOpen = s.isSidebarOpen ∧
     (handleSpeakOverview s env).1.isAppReady = s.isAppReady) ∧
    ((sessionComplete s env).rawInput = s.rawInput ∧
     (sessionComplete s env).selectedFile = s.selectedFile ∧
     (sessionComplete s env).isProcessing = s.isProcessing ∧
     (sessionComplete s env).errorMsg = s.errorMsg ∧
     (sessionComplete s env).lecture = s.lecture ∧
     (sessionComplete s env).activeSectionId = s.activeSectionId ∧
     (sessionComplete s env).isSidebarOpen = s.isSidebarOpen ∧
     (sessionComplete s env).isAppReady = s.isAppReady) := by
  by_cases hlec : s.lecture = none
  · simp [speak_noop_no_lecture s env hlec, sessionComplete]
  · by_cases hsp : s.isSpeaking = true
    · simp [speak_noop s env hsp, sessionComplete]
    · have hidle : s.isSpeaking = false := by
        cases h : s.isSpeaking
        · rfl
        · exact absurd h hsp
      obtain ⟨t, created, pend, hshape⟩ := speak_shape s env hlec hidle
      simp only [sessionComplete, hshape, onEnded]
      cases pend <;> simp

end LectureLens
